import Mathlib

/-!
# Zone resource of the NS1 binding (`zone.go`)

A shallow embedding of the zone data model, of the constructor `NewZone`, of the three
mode mutators `MakePrimary`, `MakeSecondary` and `LinkTo`, and of `GetZone`.

Conventions of the embedding:

* a Go pointer field (`*ZonePrimary`, `*ZoneSecondary`) is an `Option`: `none` is `nil`;
* a Go slice is an `Option (List _)`: `none` is the `nil` slice, `some []` is a slice that is
  allocated but has length 0 (`make([]T, 0)`);
* a Go `map[string]string` is an `Option (List (String × String))`: `none` is the `nil` map;
* a Go `int` is an `Int` (the file does no arithmetic), a Go `string` is a `String`;
* a method with a pointer receiver that mutates `*z` is a function `Zone → Zone`.
-/

set_option linter.dupNamespace false

namespace Nsone

/-- ZoneSecondaryServer wraps elements of a zone's "primary.secondary" attribute. -/
structure ZoneSecondaryServer where
  Ip : String
  Port : Int
  Notify : Bool
  deriving DecidableEq, Repr

/-- ZonePrimary wraps a zone's "primary" attribute. -/
structure ZonePrimary where
  Enabled : Bool
  Secondaries : Option (List ZoneSecondaryServer)
  deriving DecidableEq, Repr

/-- ZoneSecondary wraps a zone's "secondary" attribute. -/
structure ZoneSecondary where
  Status : String
  Last_xfr : Int
  Primary_ip : String
  Primary_port : Int
  Enabled : Bool
  Expired : Bool
  deriving DecidableEq, Repr

/-- ZoneRecord wraps a zone's "records" attribute. The Go field `Type` is spelled `Type_`
here, `Type` being reserved. -/
structure ZoneRecord where
  Domain : String
  Id : String
  Link : String
  ShortAns : Option (List String)
  Tier : Int
  Ttl : Int
  Type_ : String
  deriving DecidableEq, Repr

/-- Zone wraps an NS1 /zone resource. -/
structure Zone where
  Id : String
  Ttl : Int
  Nx_ttl : Int
  Retry : Int
  Zone : String
  Refresh : Int
  Expiry : Int
  Primary : Option ZonePrimary
  Dns_servers : Option (List String)
  Networks : Option (List Int)
  Network_pools : Option (List String)
  Hostmaster : String
  Pool : String
  Meta : Option (List (String × String))
  Secondary : Option ZoneSecondary
  Link : String
  Records : Option (List ZoneRecord)
  Serial : Int
  deriving DecidableEq, Repr

/-- The Go zero value of `Zone`: what `Zone{}` and `var z Zone` denote. -/
def Zone.zero : Nsone.Zone where
  Id := ""
  Ttl := 0
  Nx_ttl := 0
  Retry := 0
  Zone := ""
  Refresh := 0
  Expiry := 0
  Primary := none
  Dns_servers := none
  Networks := none
  Network_pools := none
  Hostmaster := ""
  Pool := ""
  Meta := none
  Secondary := none
  Link := ""
  Records := none
  Serial := 0

/-- MakePrimary enables Primary, disables Secondary, and sets primary's Secondaries to all
provided servers. The variadic parameter is the slice Go builds for it: `none` when the call
has no argument, the caller's slice for `MakePrimary(s...)`. -/
def Zone.MakePrimary (z : Nsone.Zone) (secondaries : Option (List ZoneSecondaryServer)) :
    Nsone.Zone :=
  let z := { z with Secondary := none }
  let z := { z with Primary := some { Enabled := true, Secondaries := secondaries } }
  match z.Primary with
  | some p =>
    if p.Secondaries = none then
      { z with Primary := some { p with Secondaries := some [] } }
    else z
  | none => z

/-- NewZone takes a zone domain name and creates a new primary zone. -/
def NewZone (zone : String) : Zone :=
  let z := { Zone.zero with Zone := zone }
  z.MakePrimary none

/-- MakeSecondary enables Secondary, disables Primary, and sets secondary's Primary_ip to the
provided ip. -/
def Zone.MakeSecondary (z : Nsone.Zone) (ip : String) : Nsone.Zone :=
  let z := { z with
    Secondary := some {
      Status := "", Last_xfr := 0, Primary_ip := ip, Primary_port := 53,
      Enabled := true, Expired := false } }
  { z with Primary := some { Enabled := false, Secondaries := some [] } }

/-- LinkTo sets Link to a target zone domain name and unsets all other configuration
properties. The Go parameter `to` is spelled `to_` here. -/
def Zone.LinkTo (z : Nsone.Zone) (to_ : String) : Nsone.Zone :=
  let z := { z with Meta := none }
  let z := { z with Ttl := 0 }
  let z := { z with Nx_ttl := 0 }
  let z := { z with Retry := 0 }
  let z := { z with Refresh := 0 }
  let z := { z with Expiry := 0 }
  let z := { z with Primary := none }
  let z := { z with Dns_servers := none }
  let z := { z with Networks := none }
  let z := { z with Network_pools := none }
  let z := { z with Hostmaster := "" }
  let z := { z with Pool := "" }
  let z := { z with Secondary := none }
  { z with Link := to_ }

/-- A Go `error` value; `none : Option GoError` is the `nil` error. -/
abbrev GoError := String

/-- The transport helper `doHTTPUnmarshal` of `APIClient`, which lives outside `zone.go`: it
receives the method, the URI, the request body (`none` for `nil`) and the zone the response is
decoded into, and returns the status, the error and the zone as the decoding left it. -/
abbrev Transport := String → String → Option String → Zone → Int × Option GoError × Zone

/-- GetZone takes a zone name and returns a single active zone and its basic configuration
details. The returned pointer is an `Option Zone`, `none` being `nil`. -/
def GetZone (doHTTPUnmarshal : Transport) (zone : String) : Option Zone × Option GoError :=
  let z := NewZone zone
  match doHTTPUnmarshal "GET" ("https://api.nsone.net/v1/zones/" ++ z.Zone) none z with
  | (status, err, z) =>
    if status = 404 then
      let z := { z with Id := "" }
      let z := { z with Zone := "" }
      (some z, none)
    else
      (some z, err)

/-- One call of a mode mutator, with its arguments. -/
inductive ZoneOp where
  | makePrimary (secondaries : Option (List ZoneSecondaryServer))
  | makeSecondary (ip : String)
  | linkTo (to_ : String)
  deriving DecidableEq, Repr

/-- The effect of one mutator call on a zone. -/
def ZoneOp.apply (op : ZoneOp) (z : Zone) : Zone :=
  match op with
  | .makePrimary secondaries => z.MakePrimary secondaries
  | .makeSecondary ip => z.MakeSecondary ip
  | .linkTo to_ => z.LinkTo to_

/-- The zone after a sequence of mutator calls, made in list order. -/
def runOps (ops : List ZoneOp) (z : Zone) : Zone :=
  ops.foldl (fun acc op => op.apply acc) z

/-- Primary mode: Primary is present and enabled. -/
def inPrimaryMode (z : Zone) : Bool :=
  match z.Primary with
  | some p => p.Enabled
  | none => false

/-- Secondary mode: Secondary is present and enabled. -/
def inSecondaryMode (z : Zone) : Bool :=
  match z.Secondary with
  | some s => s.Enabled
  | none => false

/-- Linked mode: Link is set to a non-empty target. -/
def inLinkedMode (z : Zone) : Bool :=
  decide (z.Link ≠ "")

/-- Exactly one of the three modes holds. -/
def exactlyOneMode (z : Zone) : Bool :=
  (inPrimaryMode z && !inSecondaryMode z && !inLinkedMode z) ||
  (!inPrimaryMode z && inSecondaryMode z && !inLinkedMode z) ||
  (!inPrimaryMode z && !inSecondaryMode z && inLinkedMode z)

/-- The target of the most recent `LinkTo` call of a sequence, `init` when it has none. -/
def lastLinkTarget (init : String) (ops : List ZoneOp) : String :=
  ops.foldl (fun acc op => match op with | .linkTo t => t | _ => acc) init

/-- Whether the last call of a sequence is a `LinkTo`. -/
def endsWithLinkTo (ops : List ZoneOp) : Bool :=
  match ops.getLast? with
  | some (.linkTo _) => true
  | _ => false


/-! ## JSON encoding and decoding of a zone

`zone.go` declares how a zone is laid out in JSON through the tags of its struct fields: the
names of the members and which of them are omitted when empty. The encoder and the decoder
themselves are Go's `encoding/json`, called by the transport helper; neither is part of
`zone.go`. They are modelled here on JSON values (the tree a JSON text denotes), for the types
and tags of `zone.go`, with the meaning the `omitempty` tag has in Go:

* a field tagged `omitempty` is left out when it is `false`, `0`, the empty string, a `nil`
  pointer, or a slice or map of length 0 (`nil` or allocated);
* a field that is written holds `null` for a `nil` pointer, slice or map;
* the decoder goes through the members of an object in order, finds the field a key names (an
  exact match of the tag's name first, a case-insensitive match otherwise), skips a key that
  names no field, and decodes the value into that field: `null` leaves a string, number or
  boolean as it is and makes a pointer, slice or map `nil`; a value of the wrong JSON type is an
  error (the model then gives no result).

The decoder is modelled for a target that was freshly allocated: the elements of a slice are
decoded from zero values.
-/

/-- Modelled from the spec: the wire payload, which `zone.go` never builds itself. A JSON
value; numbers are the integers, the only numbers a zone holds. -/
inductive Json where
  | null
  | bool (b : Bool)
  | num (n : Int)
  | str (s : String)
  | arr (items : List Json)
  | obj (members : List (String × Json))

/-- Modelled from the spec: the omit-when-empty rule of the JSON encoder, which is not part of
`zone.go`. A member for a string field tagged `omitempty`: left out for the empty string. -/
def omitEmptyString (key : String) (s : String) : List (String × Json) :=
  if s = "" then [] else [(key, .str s)]

/-- Modelled from the spec: the omit-when-empty rule of the JSON encoder, which is not part of
`zone.go`. A member for an int field tagged `omitempty`: left out for 0. -/
def omitEmptyInt (key : String) (n : Int) : List (String × Json) :=
  if n = 0 then [] else [(key, .num n)]

/-- Modelled from the spec: the omit-when-empty rule of the JSON encoder, which is not part of
`zone.go`. A member for a bool field tagged `omitempty`: left out for `false`. -/
def omitEmptyBool (key : String) (b : Bool) : List (String × Json) :=
  if b = false then [] else [(key, .bool b)]

/-- Modelled from the spec: the JSON encoder, which is not part of `zone.go`. The value of a
slice: `null` for the `nil` slice, an array otherwise. -/
def encodeSlice {α : Type} (elem : α → Json) : Option (List α) → Json
  | none => .null
  | some l => .arr (l.map elem)

/-- Modelled from the spec: the omit-when-empty rule of the JSON encoder, which is not part of
`zone.go`. A member for a slice field tagged `omitempty`: left out when the length is 0, for
the `nil` slice and for an allocated one alike. -/
def omitEmptySlice {α : Type} (key : String) (elem : α → Json) :
    Option (List α) → List (String × Json)
  | none => []
  | some [] => []
  | some (a :: l) => [(key, .arr ((a :: l).map elem))]

/-- Modelled from the spec: the omit-when-empty rule of the JSON encoder, which is not part of
`zone.go`. A member for a `map[string]string` field tagged `omitempty`: left out when the map
has no entry; the entries are written in key order, which is the order of the list. -/
def omitEmptyMap (key : String) : Option (List (String × String)) → List (String × Json)
  | none => []
  | some [] => []
  | some (e :: l) => [(key, .obj ((e :: l).map fun kv => (kv.1, .str kv.2)))]

/-- Modelled from the spec: the omit-when-empty rule of the JSON encoder, which is not part of
`zone.go`. A member for a pointer field tagged `omitempty`: left out when the pointer is
`nil`. -/
def omitEmptyPointer {α : Type} (key : String) (elem : α → Json) :
    Option α → List (String × Json)
  | none => []
  | some a => [(key, elem a)]

/-- JSON of a `ZoneSecondaryServer`: `ip`, `port,omitempty`, `notify`. -/
def encodeSecondaryServer (s : ZoneSecondaryServer) : Json :=
  .obj ([("ip", .str s.Ip)] ++ (omitEmptyInt "port" s.Port ++ [("notify", .bool s.Notify)]))

/-- JSON of a `ZonePrimary`: `enabled`, `secondaries`, neither with `omitempty`. -/
def encodePrimary (p : ZonePrimary) : Json :=
  .obj ([("enabled", .bool p.Enabled)] ++
    [("secondaries", encodeSlice encodeSecondaryServer p.Secondaries)])

/-- JSON of a `ZoneSecondary`: all fields `omitempty` but `enabled`. -/
def encodeSecondary (s : ZoneSecondary) : Json :=
  .obj (omitEmptyString "status" s.Status ++ (omitEmptyInt "last_xfr" s.Last_xfr ++
    (omitEmptyString "primary_ip" s.Primary_ip ++ (omitEmptyInt "primary_port" s.Primary_port ++
    ([("enabled", .bool s.Enabled)] ++ omitEmptyBool "expired" s.Expired)))))

/-- JSON of a `ZoneRecord`: every field `omitempty`. -/
def encodeRecord (r : ZoneRecord) : Json :=
  .obj (omitEmptyString "Domain" r.Domain ++ (omitEmptyString "id" r.Id ++
    (omitEmptyString "link" r.Link ++ (omitEmptySlice "short_answers" Json.str r.ShortAns ++
    (omitEmptyInt "tier" r.Tier ++ (omitEmptyInt "ttl" r.Ttl ++
    omitEmptyString "type" r.Type_))))))

/-- JSON of a `Zone`: every field `omitempty`, in the order of the struct. -/
def encodeZone (z : Zone) : Json :=
  .obj (omitEmptyString "id" z.Id ++ (omitEmptyInt "ttl" z.Ttl ++
    (omitEmptyInt "nx_ttl" z.Nx_ttl ++ (omitEmptyInt "retry" z.Retry ++
    (omitEmptyString "zone" z.Zone ++ (omitEmptyInt "refresh" z.Refresh ++
    (omitEmptyInt "expiry" z.Expiry ++ (omitEmptyPointer "primary" encodePrimary z.Primary ++
    (omitEmptySlice "dns_servers" Json.str z.Dns_servers ++
    (omitEmptySlice "networks" Json.num z.Networks ++
    (omitEmptySlice "network_pools" Json.str z.Network_pools ++
    (omitEmptyString "hostmaster" z.Hostmaster ++ (omitEmptyString "pool" z.Pool ++
    (omitEmptyMap "meta" z.Meta ++
    (omitEmptyPointer "secondary" encodeSecondary z.Secondary ++
    (omitEmptyString "link" z.Link ++ (omitEmptySlice "records" encodeRecord z.Records ++
    omitEmptyInt "serial" z.Serial)))))))))))))))))

/-- Modelled from the spec: the JSON decoder, which is not part of `zone.go`. The field a key
names, among the fields `fields` of a struct (tag name and field): the
field whose name is the key if there is one, otherwise the first field whose name is the key
up to case. The case folding `fold` is the library's and is a parameter. -/
def resolveField {F : Type} (fold : String → String) (fields : List (String × F))
    (key : String) : Option F :=
  match fields.find? (fun f => f.1 == key) with
  | some f => some f.2
  | none => (fields.find? (fun f => fold f.1 == fold key)).map (fun f => f.2)

/-- Modelled from the spec: the JSON decoder, which is not part of `zone.go`. Decode the
members of an object one after the other into a struct, `step` decoding one
member into the field it names; the first error ends the decoding. -/
def decodeMembers {σ : Type} (step : σ → String × Json → Option σ) :
    List (String × Json) → σ → Option σ
  | [], s => some s
  | m :: ms, s =>
    match step s m with
    | some s1 => decodeMembers step ms s1
    | none => none

/-- Modelled from the spec: the JSON decoder, which is not part of `zone.go`. Decode a value
into a struct that holds `zero`. -/
def decodeStruct {σ : Type} (step : σ → String × Json → Option σ) (zero : σ) :
    Json → Option σ
  | .obj ms => decodeMembers step ms zero
  | .null => some zero
  | _ => none

/-- Modelled from the spec: the JSON decoder, which is not part of `zone.go`. Decode a value
into a string that holds `old`. -/
def decodeString (old : String) : Json → Option String
  | .str s => some s
  | .null => some old
  | _ => none

/-- Modelled from the spec: the JSON decoder, which is not part of `zone.go`. Decode a value
into an int that holds `old`. -/
def decodeInt (old : Int) : Json → Option Int
  | .num n => some n
  | .null => some old
  | _ => none

/-- Modelled from the spec: the JSON decoder, which is not part of `zone.go`. Decode a value
into a bool that holds `old`. -/
def decodeBool (old : Bool) : Json → Option Bool
  | .bool b => some b
  | .null => some old
  | _ => none

/-- Modelled from the spec: the JSON decoder, which is not part of `zone.go`. Decode the items
of an array, each into a fresh element. -/
def decodeItems {α : Type} (elem : Json → Option α) : List Json → Option (List α)
  | [] => some []
  | j :: js =>
    match elem j with
    | some a => (decodeItems elem js).map (fun l => a :: l)
    | none => none

/-- Modelled from the spec: the JSON decoder, which is not part of `zone.go`. Decode a value
into a slice: `null` gives the `nil` slice, an array an allocated slice of
its items (of length 0 for `[]`). -/
def decodeSlice {α : Type} (elem : Json → Option α) : Json → Option (Option (List α))
  | .null => some none
  | .arr items => (decodeItems elem items).map some
  | _ => none

/-- Modelled from the spec: the JSON decoder, which is not part of `zone.go`. Decode a value
into a pointer that holds `old`: `null` gives `nil`; an object is decoded
into the struct pointed to, which is allocated with `zero` when the pointer is `nil`. -/
def decodePointer {σ : Type} (step : σ → String × Json → Option σ) (zero : σ)
    (old : Option σ) : Json → Option (Option σ)
  | .null => some none
  | .obj ms => (decodeMembers step ms (old.getD zero)).map some
  | _ => none

/-- Modelled from the spec: the JSON decoder, which is not part of `zone.go`. Assign
`m[k] = v` in a map kept in key order. -/
def mapInsert (k v : String) : List (String × String) → List (String × String)
  | [] => [(k, v)]
  | e :: l =>
    if k < e.1 then (k, v) :: e :: l
    else if k = e.1 then (k, v) :: l
    else e :: mapInsert k v l

/-- Modelled from the spec: the JSON decoder, which is not part of `zone.go`. Decode the
members of an object into the entries of a map, one assignment each. -/
def decodeEntries : List (String × Json) → List (String × String) →
    Option (List (String × String))
  | [], acc => some acc
  | m :: ms, acc =>
    match decodeString "" m.2 with
    | some v => decodeEntries ms (mapInsert m.1 v acc)
    | none => none

/-- Modelled from the spec: the JSON decoder, which is not part of `zone.go`. Decode a value
into a `map[string]string` that holds `old`: `null` gives the `nil` map; an
object is decoded into the map, which is allocated when it is `nil`. -/
def decodeMap (old : Option (List (String × String))) :
    Json → Option (Option (List (String × String)))
  | .null => some none
  | .obj ms => (decodeEntries ms (old.getD [])).map some
  | _ => none

/-- The fields of `ZoneSecondaryServer`. -/
inductive SecondaryServerField where
  | Ip | Port | Notify
  deriving DecidableEq, Repr

/-- The JSON names of the fields of `ZoneSecondaryServer`, from their tags. -/
def secondaryServerFields : List (String × SecondaryServerField) :=
  [("ip", .Ip), ("port", .Port), ("notify", .Notify)]

/-- The fields of `ZonePrimary`. -/
inductive PrimaryField where
  | Enabled | Secondaries
  deriving DecidableEq, Repr

/-- The JSON names of the fields of `ZonePrimary`, from their tags. -/
def primaryFields : List (String × PrimaryField) :=
  [("enabled", .Enabled), ("secondaries", .Secondaries)]

/-- The fields of `ZoneSecondary`. -/
inductive SecondaryField where
  | Status | Last_xfr | Primary_ip | Primary_port | Enabled | Expired
  deriving DecidableEq, Repr

/-- The JSON names of the fields of `ZoneSecondary`, from their tags. -/
def secondaryFields : List (String × SecondaryField) :=
  [("status", .Status), ("last_xfr", .Last_xfr), ("primary_ip", .Primary_ip),
   ("primary_port", .Primary_port), ("enabled", .Enabled), ("expired", .Expired)]

/-- The fields of `ZoneRecord`. -/
inductive RecordField where
  | Domain | Id | Link | ShortAns | Tier | Ttl | Type_
  deriving DecidableEq, Repr

/-- The JSON names of the fields of `ZoneRecord`, from their tags. -/
def recordFields : List (String × RecordField) :=
  [("Domain", .Domain), ("id", .Id), ("link", .Link), ("short_answers", .ShortAns),
   ("tier", .Tier), ("ttl", .Ttl), ("type", .Type_)]

/-- The fields of `Zone`. -/
inductive ZoneField where
  | Id | Ttl | Nx_ttl | Retry | Zone | Refresh | Expiry | Primary | Dns_servers | Networks
  | Network_pools | Hostmaster | Pool | Meta | Secondary | Link | Records | Serial
  deriving DecidableEq, Repr

/-- The JSON names of the fields of `Zone`, from their tags. -/
def zoneFields : List (String × ZoneField) :=
  [("id", .Id), ("ttl", .Ttl), ("nx_ttl", .Nx_ttl), ("retry", .Retry), ("zone", .Zone),
   ("refresh", .Refresh), ("expiry", .Expiry), ("primary", .Primary),
   ("dns_servers", .Dns_servers), ("networks", .Networks), ("network_pools", .Network_pools),
   ("hostmaster", .Hostmaster), ("pool", .Pool), ("meta", .Meta), ("secondary", .Secondary),
   ("link", .Link), ("records", .Records), ("serial", .Serial)]

/-- The zero value of `ZoneSecondaryServer`. -/
def ZoneSecondaryServer.zero : ZoneSecondaryServer :=
  { Ip := "", Port := 0, Notify := false }

/-- The zero value of `ZonePrimary`. -/
def ZonePrimary.zero : ZonePrimary :=
  { Enabled := false, Secondaries := none }

/-- The zero value of `ZoneSecondary`. -/
def ZoneSecondary.zero : ZoneSecondary :=
  { Status := "", Last_xfr := 0, Primary_ip := "", Primary_port := 0, Enabled := false,
    Expired := false }

/-- The zero value of `ZoneRecord`. -/
def ZoneRecord.zero : ZoneRecord :=
  { Domain := "", Id := "", Link := "", ShortAns := none, Tier := 0, Ttl := 0, Type_ := "" }

/-- Decode one member of an object into a `ZoneSecondaryServer`. -/
def setSecondaryServerField (fold : String → String) (s : ZoneSecondaryServer)
    (m : String × Json) : Option ZoneSecondaryServer :=
  match resolveField fold secondaryServerFields m.1 with
  | some .Ip => (decodeString s.Ip m.2).map fun v => { s with Ip := v }
  | some .Port => (decodeInt s.Port m.2).map fun v => { s with Port := v }
  | some .Notify => (decodeBool s.Notify m.2).map fun v => { s with Notify := v }
  | none => some s

/-- Decode one member of an object into a `ZonePrimary`. -/
def setPrimaryField (fold : String → String) (p : ZonePrimary) (m : String × Json) :
    Option ZonePrimary :=
  match resolveField fold primaryFields m.1 with
  | some .Enabled => (decodeBool p.Enabled m.2).map fun v => { p with Enabled := v }
  | some .Secondaries =>
    (decodeSlice (decodeStruct (setSecondaryServerField fold) ZoneSecondaryServer.zero) m.2).map
      fun v => { p with Secondaries := v }
  | none => some p

/-- Decode one member of an object into a `ZoneSecondary`. -/
def setSecondaryField (fold : String → String) (s : ZoneSecondary) (m : String × Json) :
    Option ZoneSecondary :=
  match resolveField fold secondaryFields m.1 with
  | some .Status => (decodeString s.Status m.2).map fun v => { s with Status := v }
  | some .Last_xfr => (decodeInt s.Last_xfr m.2).map fun v => { s with Last_xfr := v }
  | some .Primary_ip => (decodeString s.Primary_ip m.2).map fun v => { s with Primary_ip := v }
  | some .Primary_port =>
    (decodeInt s.Primary_port m.2).map fun v => { s with Primary_port := v }
  | some .Enabled => (decodeBool s.Enabled m.2).map fun v => { s with Enabled := v }
  | some .Expired => (decodeBool s.Expired m.2).map fun v => { s with Expired := v }
  | none => some s

/-- Decode one member of an object into a `ZoneRecord`. -/
def setRecordField (fold : String → String) (r : ZoneRecord) (m : String × Json) :
    Option ZoneRecord :=
  match resolveField fold recordFields m.1 with
  | some .Domain => (decodeString r.Domain m.2).map fun v => { r with Domain := v }
  | some .Id => (decodeString r.Id m.2).map fun v => { r with Id := v }
  | some .Link => (decodeString r.Link m.2).map fun v => { r with Link := v }
  | some .ShortAns =>
    (decodeSlice (decodeString "") m.2).map fun v => { r with ShortAns := v }
  | some .Tier => (decodeInt r.Tier m.2).map fun v => { r with Tier := v }
  | some .Ttl => (decodeInt r.Ttl m.2).map fun v => { r with Ttl := v }
  | some .Type_ => (decodeString r.Type_ m.2).map fun v => { r with Type_ := v }
  | none => some r

/-- Decode one member of an object into a `Zone`. -/
def setZoneField (fold : String → String) (z : Zone) (m : String × Json) : Option Zone :=
  match resolveField fold zoneFields m.1 with
  | some .Id => (decodeString z.Id m.2).map fun v => { z with Id := v }
  | some .Ttl => (decodeInt z.Ttl m.2).map fun v => { z with Ttl := v }
  | some .Nx_ttl => (decodeInt z.Nx_ttl m.2).map fun v => { z with Nx_ttl := v }
  | some .Retry => (decodeInt z.Retry m.2).map fun v => { z with Retry := v }
  | some .Zone => (decodeString z.Zone m.2).map fun v => { z with Zone := v }
  | some .Refresh => (decodeInt z.Refresh m.2).map fun v => { z with Refresh := v }
  | some .Expiry => (decodeInt z.Expiry m.2).map fun v => { z with Expiry := v }
  | some .Primary =>
    (decodePointer (setPrimaryField fold) ZonePrimary.zero z.Primary m.2).map
      fun v => { z with Primary := v }
  | some .Dns_servers =>
    (decodeSlice (decodeString "") m.2).map fun v => { z with Dns_servers := v }
  | some .Networks => (decodeSlice (decodeInt 0) m.2).map fun v => { z with Networks := v }
  | some .Network_pools =>
    (decodeSlice (decodeString "") m.2).map fun v => { z with Network_pools := v }
  | some .Hostmaster => (decodeString z.Hostmaster m.2).map fun v => { z with Hostmaster := v }
  | some .Pool => (decodeString z.Pool m.2).map fun v => { z with Pool := v }
  | some .Meta => (decodeMap z.Meta m.2).map fun v => { z with Meta := v }
  | some .Secondary =>
    (decodePointer (setSecondaryField fold) ZoneSecondary.zero z.Secondary m.2).map
      fun v => { z with Secondary := v }
  | some .Link => (decodeString z.Link m.2).map fun v => { z with Link := v }
  | some .Records =>
    (decodeSlice (decodeStruct (setRecordField fold) ZoneRecord.zero) m.2).map
      fun v => { z with Records := v }
  | some .Serial => (decodeInt z.Serial m.2).map fun v => { z with Serial := v }
  | none => some z

/-- Decode a JSON value into a fresh `Zone`. -/
def decodeZone (fold : String → String) (j : Json) : Option Zone :=
  decodeStruct (setZoneField fold) Zone.zero j

/-- A slice or map as an `omitempty` field gives it back: one of length 0 becomes `nil`. -/
def dropEmpty {α : Type} : Option (List α) → Option (List α)
  | some (a :: l) => some (a :: l)
  | _ => none

/-- A record as the round trip gives it back. -/
def ZoneRecord.dropEmpty (r : ZoneRecord) : ZoneRecord :=
  { r with ShortAns := Nsone.dropEmpty r.ShortAns }

/-- A zone as the round trip gives it back: each slice or map of length 0 held by an
`omitempty` field (`Dns_servers`, `Networks`, `Network_pools`, `Meta`, `Records`, and the
`ShortAns` of each record) is `nil`; the other fields, `Primary` and `Secondary` among them,
are the zone's own. -/
def Zone.dropEmpty (z : Nsone.Zone) : Nsone.Zone :=
  { z with
    Dns_servers := Nsone.dropEmpty z.Dns_servers
    Networks := Nsone.dropEmpty z.Networks
    Network_pools := Nsone.dropEmpty z.Network_pools
    Meta := Nsone.dropEmpty z.Meta
    Records := Nsone.dropEmpty (z.Records.map fun l => l.map ZoneRecord.dropEmpty) }

/-- The entries of a map are listed by strictly increasing key: each key once, in the order
the encoder writes them. `nil` and the map of no entry qualify. -/
def keysIncreasing (m : Option (List (String × String))) : Prop :=
  match m with
  | none => True
  | some l => l.Pairwise (fun a b => a.1 < b.1)

/-- A zone holds no slice or map of length 0 in an `omitempty` field. -/
def Zone.noEmpty (z : Nsone.Zone) : Prop :=
  z.dropEmpty = z

instance (z : Zone) : Decidable z.noEmpty :=
  inferInstanceAs (Decidable (z.dropEmpty = z))

/-- Modelled from the spec: the case folding of the JSON decoder, which is not part of
`zone.go`. The ASCII letters are lower-cased. -/
def asciiFold (s : String) : String :=
  s.map Char.toLower

/-- A secondary-mode zone with timers, name servers, networks, one Meta entry and one record,
and no slice or map of length 0 in an `omitempty` field. -/
def sampleZone : Zone :=
  { (NewZone "example.com").MakeSecondary "192.0.2.1" with
    Ttl := 3600
    Dns_servers := some ["dns1.p01.nsone.net"]
    Networks := some [0]
    Meta := some [("note", "test")]
    Records := some [{ Domain := "www.example.com", Id := "", Link := "",
                       ShortAns := some ["192.0.2.7"], Tier := 0, Ttl := 60, Type_ := "A" }] }

/-- A primary-mode zone with a record whose `ShortAns` is allocated and empty. -/
def emptyAnswersZone : Zone :=
  { NewZone "example.com" with
    Records := some [{ ZoneRecord.zero with Domain := "www.example.com", ShortAns := some [] }] }

/-! ## Constructor and mode mutators -/

/-- C1: for every name, `NewZone name` has `Zone = name`, a present Primary with
`Enabled = true` and a Secondaries list that is allocated and empty, an absent Secondary, and
the zero value in every other field. -/
theorem NewZone_spec (name : String) :
    NewZone name =
      { Id := "", Ttl := 0, Nx_ttl := 0, Retry := 0, Zone := name, Refresh := 0, Expiry := 0,
        Primary := some { Enabled := true, Secondaries := some [] },
        Dns_servers := none, Networks := none, Network_pools := none, Hostmaster := "",
        Pool := "", Meta := none, Secondary := none, Link := "", Records := none,
        Serial := 0 } := by
  rfl

/-- C2: for every zone and every slice of secondary servers, after `MakePrimary` the
Secondary is absent and the Primary is present and enabled; its Secondaries list is never
absent: it is the allocated empty list when the argument slice is `nil` (no server given), and
the argument slice itself, same servers in the same order, otherwise. -/
theorem MakePrimary_spec (z : Zone) (s : Option (List ZoneSecondaryServer)) :
    (z.MakePrimary s).Secondary = none ∧
    (z.MakePrimary s).Primary = some { Enabled := true, Secondaries := some (s.getD []) } ∧
    (z.MakePrimary none).Primary = some { Enabled := true, Secondaries := some [] } := by
  cases s <;> simp [Zone.MakePrimary]

/-- C3: for every zone and every ip, after `MakeSecondary ip` the Primary is present, disabled,
with an allocated empty Secondaries list, and the Secondary is present with `Enabled = true`,
`Primary_ip = ip`, `Primary_port = 53` and `Status`, `Last_xfr`, `Expired` at their zero
values. -/
theorem MakeSecondary_spec (z : Zone) (ip : String) :
    (z.MakeSecondary ip).Primary = some { Enabled := false, Secondaries := some [] } ∧
    (z.MakeSecondary ip).Secondary =
      some { Status := "", Last_xfr := 0, Primary_ip := ip, Primary_port := 53,
             Enabled := true, Expired := false } := by
  exact ⟨rfl, rfl⟩

/-- C4: for every zone and every target, after `LinkTo target` the Link is the target and
Primary, Secondary, Meta, Ttl, Nx_ttl, Retry, Refresh, Expiry, Dns_servers, Networks,
Network_pools, Hostmaster and Pool all have their zero or absent value. -/
theorem LinkTo_spec (z : Zone) (target : String) :
    (z.LinkTo target).Link = target ∧
    (z.LinkTo target).Primary = none ∧
    (z.LinkTo target).Secondary = none ∧
    (z.LinkTo target).Meta = none ∧
    (z.LinkTo target).Ttl = 0 ∧
    (z.LinkTo target).Nx_ttl = 0 ∧
    (z.LinkTo target).Retry = 0 ∧
    (z.LinkTo target).Refresh = 0 ∧
    (z.LinkTo target).Expiry = 0 ∧
    (z.LinkTo target).Dns_servers = none ∧
    (z.LinkTo target).Networks = none ∧
    (z.LinkTo target).Network_pools = none ∧
    (z.LinkTo target).Hostmaster = "" ∧
    (z.LinkTo target).Pool = "" := by
  exact ⟨rfl, rfl, rfl, rfl, rfl, rfl, rfl, rfl, rfl, rfl, rfl, rfl, rfl, rfl⟩

/-- C7: for every starting zone, none of the three mutators yields a zone with both Primary
enabled and Secondary enabled; `MakePrimary` leaves Secondary absent, and `MakeSecondary`
leaves Primary disabled with an empty list of secondary servers. -/
theorem primary_secondary_exclusive (z : Zone) (op : ZoneOp)
    (s : Option (List ZoneSecondaryServer)) (ip : String) :
    (inPrimaryMode (op.apply z) && inSecondaryMode (op.apply z)) = false ∧
    (z.MakePrimary s).Secondary = none ∧
    (z.MakeSecondary ip).Primary = some { Enabled := false, Secondaries := some [] } := by
  refine ⟨?_, ?_, rfl⟩
  · cases op with
    | makePrimary s => cases s <;> rfl
    | makeSecondary ip => rfl
    | linkTo t => rfl
  · cases s <;> rfl

/-- C10: `MakePrimary` and `MakeSecondary` change only Primary and Secondary: a zone that is
given their Primary and Secondary is turned into the same zone; in particular the Link is
unchanged. `LinkTo` leaves Id, Zone, Records and Serial unchanged. -/
theorem mutators_frame (z : Zone) (s : Option (List ZoneSecondaryServer)) (ip target : String) :
    z.MakePrimary s =
      { z with Primary := (z.MakePrimary s).Primary, Secondary := (z.MakePrimary s).Secondary } ∧
    z.MakeSecondary ip =
      { z with Primary := (z.MakeSecondary ip).Primary,
               Secondary := (z.MakeSecondary ip).Secondary } ∧
    (z.MakePrimary s).Link = z.Link ∧
    (z.MakeSecondary ip).Link = z.Link ∧
    (z.LinkTo target).Id = z.Id ∧
    (z.LinkTo target).Zone = z.Zone ∧
    (z.LinkTo target).Records = z.Records ∧
    (z.LinkTo target).Serial = z.Serial := by
  refine ⟨?_, rfl, ?_, rfl, rfl, rfl, rfl, rfl⟩ <;> cases s <;> rfl

/-! ## GetZone -/

/-- C5: whatever the transport does, when the status it reports is 404, `GetZone name` returns
no error, also when the transport returned one, and a zone whose `Zone` and `Id` are both
empty. -/
theorem GetZone_notFound (t : Transport) (name : String)
    (h : (t "GET" ("https://api.nsone.net/v1/zones/" ++ name) none (NewZone name)).1 = 404) :
    (GetZone t name).2 = none ∧
    ∃ z, (GetZone t name).1 = some z ∧ z.Zone = "" ∧ z.Id = "" := by
  have hz : (NewZone name).Zone = name := rfl
  simp [GetZone, hz, h]

theorem GetZone_notFound_witness :
    ((fun _ _ _ z => (404, some "not found", { z with Id := "stale" }) : Transport)
        "GET" ("https://api.nsone.net/v1/zones/" ++ "example.com") none
        (NewZone "example.com")).1 = 404 ∧
    (GetZone (fun _ _ _ z => (404, some "not found", { z with Id := "stale" }))
        "example.com").2 = none ∧
    ∃ z, (GetZone (fun _ _ _ z => (404, some "not found", { z with Id := "stale" }))
        "example.com").1 = some z ∧ z.Zone = "" ∧ z.Id = "" :=
  ⟨rfl, GetZone_notFound (fun _ _ _ z => (404, some "not found", { z with Id := "stale" }))
    "example.com" rfl⟩

/-- C9: whatever the transport does, `GetZone name` makes one `GET` request for the zone's URL
with the default primary-mode zone for `name`; it returns an error exactly when the transport
reported a status other than 404 together with an error, and the error returned is then the
transport's; it always returns a zone, which when the status is not 404 is the default zone as
the transport left it. -/
theorem GetZone_error_iff (t : Transport) (name : String) :
    ((GetZone t name).2 ≠ none ↔
      (t "GET" ("https://api.nsone.net/v1/zones/" ++ name) none (NewZone name)).1 ≠ 404 ∧
      (t "GET" ("https://api.nsone.net/v1/zones/" ++ name) none (NewZone name)).2.1 ≠ none) ∧
    ((GetZone t name).2 =
      if (t "GET" ("https://api.nsone.net/v1/zones/" ++ name) none (NewZone name)).1 = 404
      then none
      else (t "GET" ("https://api.nsone.net/v1/zones/" ++ name) none (NewZone name)).2.1) ∧
    (∃ z, (GetZone t name).1 = some z) ∧
    ((GetZone t name).1 =
      if (t "GET" ("https://api.nsone.net/v1/zones/" ++ name) none (NewZone name)).1 = 404
      then some
        { (t "GET" ("https://api.nsone.net/v1/zones/" ++ name) none (NewZone name)).2.2 with
          Id := "", Zone := "" }
      else some (t "GET" ("https://api.nsone.net/v1/zones/" ++ name) none (NewZone name)).2.2) := by
  have hz : (NewZone name).Zone = name := rfl
  simp only [GetZone, hz]
  by_cases h : (t "GET" ("https://api.nsone.net/v1/zones/" ++ name) none (NewZone name)).1 = 404
  · simp [h]
  · simp [h]

/-! ## The three modes -/

theorem runOps_concat (ops : List ZoneOp) (op : ZoneOp) (z : Zone) :
    runOps (ops ++ [op]) z = op.apply (runOps ops z) := by
  simp [runOps, List.foldl_append]

theorem lastLinkTarget_concat (init : String) (ops : List ZoneOp) (op : ZoneOp) :
    lastLinkTarget init (ops ++ [op]) =
      match op with
      | .linkTo t => t
      | _ => lastLinkTarget init ops := by
  simp [lastLinkTarget, List.foldl_append]

theorem endsWithLinkTo_concat (ops : List ZoneOp) (op : ZoneOp) :
    endsWithLinkTo (ops ++ [op]) =
      match op with
      | .linkTo _ => true
      | _ => false := by
  cases op <;> simp [endsWithLinkTo]

theorem apply_link (op : ZoneOp) (z : Zone) :
    (op.apply z).Link =
      match op with
      | .linkTo t => t
      | _ => z.Link := by
  cases op with
  | makePrimary s => cases s <;> rfl
  | makeSecondary ip => rfl
  | linkTo t => rfl

theorem runOps_link (ops : List ZoneOp) (z : Zone) :
    (runOps ops z).Link = lastLinkTarget z.Link ops := by
  induction ops using List.reverseRecOn with
  | nil => rfl
  | append_singleton ops op ih =>
    rw [runOps_concat, lastLinkTarget_concat, apply_link, ih]

/-- C6, amended: for every zone reached from `NewZone name` by a finite sequence of mutator
calls, primary mode and secondary mode never hold together, and exactly one of the three modes
holds if and only if either the last call is a `LinkTo` with a non-empty target, or the last
call is not a `LinkTo` (or there is no call) and the most recent `LinkTo`, if any, had the
empty target: `MakePrimary` and `MakeSecondary` keep the Link. -/
theorem modes_after_mutators (name : String) (ops : List ZoneOp) :
    (inPrimaryMode (runOps ops (NewZone name)) && inSecondaryMode (runOps ops (NewZone name)))
        = false ∧
    (exactlyOneMode (runOps ops (NewZone name)) = true ↔
      (endsWithLinkTo ops = true ∧ lastLinkTarget "" ops ≠ "") ∨
      (endsWithLinkTo ops = false ∧ lastLinkTarget "" ops = "")) := by
  rcases List.eq_nil_or_concat ops with h | ⟨init, op, h⟩
  · subst h
    simp [runOps, NewZone, Zone.MakePrimary, Zone.zero, inPrimaryMode, inSecondaryMode,
      exactlyOneMode, inLinkedMode, endsWithLinkTo, lastLinkTarget]
  · subst h
    rw [List.concat_eq_append]
    have hl := runOps_link init (NewZone name)
    have h0 : (NewZone name).Link = "" := rfl
    rw [h0] at hl
    rw [runOps_concat, endsWithLinkTo_concat, lastLinkTarget_concat]
    cases op with
    | makePrimary s =>
      cases s <;>
        simp [ZoneOp.apply, Zone.MakePrimary, inPrimaryMode, inSecondaryMode, exactlyOneMode,
          inLinkedMode, hl]
    | makeSecondary ip =>
      simp [ZoneOp.apply, Zone.MakeSecondary, inPrimaryMode, inSecondaryMode, exactlyOneMode,
        inLinkedMode, hl]
    | linkTo t =>
      simp [ZoneOp.apply, Zone.LinkTo, inPrimaryMode, inSecondaryMode, exactlyOneMode,
        inLinkedMode]

/-- C6, counterexample: after `LinkTo "b.example.com"` and then `MakePrimary()` a new zone is
both in primary mode and in linked mode; after `LinkTo ""` alone it is in no mode. -/
theorem modes_counterexample :
    inPrimaryMode
        (runOps [.linkTo "b.example.com", .makePrimary none] (NewZone "a.example.com")) = true ∧
    inLinkedMode
        (runOps [.linkTo "b.example.com", .makePrimary none] (NewZone "a.example.com")) = true ∧
    exactlyOneMode
        (runOps [.linkTo "b.example.com", .makePrimary none] (NewZone "a.example.com")) = false ∧
    exactlyOneMode (runOps [.linkTo ""] (NewZone "a.example.com")) = false := by
  decide

/-! ## JSON round trip -/

theorem decodeMembers_append_of {σ : Type} (step : σ → String × Json → Option σ)
    (l1 l2 : List (String × Json)) (s s1 : σ) (h : decodeMembers step l1 s = some s1) :
    decodeMembers step (l1 ++ l2) s = decodeMembers step l2 s1 := by
  induction l1 generalizing s with
  | nil =>
    simp only [decodeMembers, Option.some.injEq] at h
    subst h
    rfl
  | cons m ms ih =>
    simp only [decodeMembers, List.cons_append] at h ⊢
    cases hm : step s m with
    | none => simp [hm] at h
    | some s2 =>
      simp only [hm] at h ⊢
      exact ih s2 h

theorem decodeMembers_singleton {σ : Type} (step : σ → String × Json → Option σ)
    (m : String × Json) (s s1 : σ) (h : step s m = some s1) :
    decodeMembers step [m] s = some s1 := by
  simp [decodeMembers, h]

theorem decode_omitEmptyString {σ : Type} (step : σ → String × Json → Option σ)
    (key v : String) (s s1 : σ) (h1 : step s (key, .str v) = some s1)
    (h0 : v = "" → s1 = s) :
    decodeMembers step (omitEmptyString key v) s = some s1 := by
  unfold omitEmptyString
  split
  · next h => rw [h0 h]; rfl
  · exact decodeMembers_singleton step _ s s1 h1

theorem decode_omitEmptyInt {σ : Type} (step : σ → String × Json → Option σ)
    (key : String) (v : Int) (s s1 : σ) (h1 : step s (key, .num v) = some s1)
    (h0 : v = 0 → s1 = s) :
    decodeMembers step (omitEmptyInt key v) s = some s1 := by
  unfold omitEmptyInt
  split
  · next h => rw [h0 h]; rfl
  · exact decodeMembers_singleton step _ s s1 h1

theorem decode_omitEmptyBool {σ : Type} (step : σ → String × Json → Option σ)
    (key : String) (v : Bool) (s s1 : σ) (h1 : step s (key, .bool v) = some s1)
    (h0 : v = false → s1 = s) :
    decodeMembers step (omitEmptyBool key v) s = some s1 := by
  unfold omitEmptyBool
  split
  · next h => rw [h0 h]; rfl
  · exact decodeMembers_singleton step _ s s1 h1

theorem decode_omitEmptySlice {σ α : Type} (step : σ → String × Json → Option σ)
    (key : String) (enc : α → Json) (v : Option (List α)) (s s1 : σ)
    (h1 : ∀ a l, v = some (a :: l) → step s (key, .arr ((a :: l).map enc)) = some s1)
    (h0 : v = none ∨ v = some [] → s1 = s) :
    decodeMembers step (omitEmptySlice key enc v) s = some s1 := by
  match v with
  | none => rw [h0 (Or.inl rfl)]; rfl
  | some [] => rw [h0 (Or.inr rfl)]; rfl
  | some (a :: l) => exact decodeMembers_singleton step _ s s1 (h1 a l rfl)

theorem decode_omitEmptyMap {σ : Type} (step : σ → String × Json → Option σ)
    (key : String) (v : Option (List (String × String))) (s s1 : σ)
    (h1 : ∀ e l, v = some (e :: l) →
      step s (key, .obj ((e :: l).map fun kv => (kv.1, Json.str kv.2))) = some s1)
    (h0 : v = none ∨ v = some [] → s1 = s) :
    decodeMembers step (omitEmptyMap key v) s = some s1 := by
  match v with
  | none => rw [h0 (Or.inl rfl)]; rfl
  | some [] => rw [h0 (Or.inr rfl)]; rfl
  | some (e :: l) => exact decodeMembers_singleton step _ s s1 (h1 e l rfl)

theorem decode_omitEmptyPointer {σ α : Type} (step : σ → String × Json → Option σ)
    (key : String) (enc : α → Json) (v : Option α) (s s1 : σ)
    (h1 : ∀ a, v = some a → step s (key, enc a) = some s1)
    (h0 : v = none → s1 = s) :
    decodeMembers step (omitEmptyPointer key enc v) s = some s1 := by
  match v with
  | none => rw [h0 rfl]; rfl
  | some a => exact decodeMembers_singleton step _ s s1 (h1 a rfl)

theorem decodeItems_map {α β : Type} (elem : Json → Option β) (enc : α → Json) (g : α → β)
    (h : ∀ a, elem (enc a) = some (g a)) (l : List α) :
    decodeItems elem (l.map enc) = some (l.map g) := by
  induction l with
  | nil => rfl
  | cons a l ih => simp [decodeItems, h, ih]

theorem decodeItems_str (l : List String) :
    decodeItems (decodeString "") (l.map Json.str) = some l := by
  have h := decodeItems_map (decodeString "") Json.str id (fun _ => rfl) l
  simpa using h

theorem decodeItems_num (l : List Int) :
    decodeItems (decodeInt 0) (l.map Json.num) = some l := by
  have h := decodeItems_map (decodeInt 0) Json.num id (fun _ => rfl) l
  simpa using h

theorem decodeStruct_secondaryServer (fold : String → String) (s : ZoneSecondaryServer) :
    decodeStruct (setSecondaryServerField fold) ZoneSecondaryServer.zero
      (encodeSecondaryServer s) = some s := by
  obtain ⟨ip, port, notify⟩ := s
  show decodeMembers (setSecondaryServerField fold) _ _ = _
  rw [decodeMembers_append_of _ _ _ _ ⟨ip, 0, false⟩
    (decodeMembers_singleton _ _ _ _ rfl)]
  rw [decodeMembers_append_of _ _ _ _ ⟨ip, port, false⟩
    (decode_omitEmptyInt _ _ _ _ _ rfl (by rintro rfl; rfl))]
  exact decodeMembers_singleton _ _ _ _ rfl

theorem decodeSlice_secondaryServers (fold : String → String)
    (v : Option (List ZoneSecondaryServer)) :
    decodeSlice (decodeStruct (setSecondaryServerField fold) ZoneSecondaryServer.zero)
      (encodeSlice encodeSecondaryServer v) = some v := by
  cases v with
  | none => rfl
  | some l =>
    have h := decodeItems_map _ encodeSecondaryServer id
      (decodeStruct_secondaryServer fold) l
    simp only [List.map_id] at h
    simp [encodeSlice, decodeSlice, h]

theorem decodeMembers_primary (fold : String → String) (p : ZonePrimary) :
    decodePointer (setPrimaryField fold) ZonePrimary.zero none (encodePrimary p)
      = some (some p) := by
  obtain ⟨enabled, secondaries⟩ := p
  show (decodeMembers (setPrimaryField fold) _ _).map some = _
  rw [decodeMembers_append_of _ _ _ _ ⟨enabled, none⟩
    (decodeMembers_singleton _ _ _ _ rfl)]
  rw [decodeMembers_singleton _ _ _ ⟨enabled, secondaries⟩]
  · rfl
  · show (decodeSlice _ (encodeSlice encodeSecondaryServer secondaries)).map _ = _
    rw [decodeSlice_secondaryServers]
    rfl

theorem decodeMembers_secondary (fold : String → String) (s : ZoneSecondary) :
    decodePointer (setSecondaryField fold) ZoneSecondary.zero none (encodeSecondary s)
      = some (some s) := by
  obtain ⟨status, last_xfr, primary_ip, primary_port, enabled, expired⟩ := s
  show (decodeMembers (setSecondaryField fold) _ _).map some = _
  rw [decodeMembers_append_of _ _ _ _ ⟨status, 0, "", 0, false, false⟩
    (decode_omitEmptyString _ _ _ _ _ rfl (by rintro rfl; rfl))]
  rw [decodeMembers_append_of _ _ _ _ ⟨status, last_xfr, "", 0, false, false⟩
    (decode_omitEmptyInt _ _ _ _ _ rfl (by rintro rfl; rfl))]
  rw [decodeMembers_append_of _ _ _ _ ⟨status, last_xfr, primary_ip, 0, false, false⟩
    (decode_omitEmptyString _ _ _ _ _ rfl (by rintro rfl; rfl))]
  rw [decodeMembers_append_of _ _ _ _ ⟨status, last_xfr, primary_ip, primary_port, false, false⟩
    (decode_omitEmptyInt _ _ _ _ _ rfl (by rintro rfl; rfl))]
  rw [decodeMembers_append_of _ _ _ _
    ⟨status, last_xfr, primary_ip, primary_port, enabled, false⟩
    (decodeMembers_singleton _ _ _ _ rfl)]
  rw [decode_omitEmptyBool _ _ _ _ ⟨status, last_xfr, primary_ip, primary_port, enabled, expired⟩
    rfl (by rintro rfl; rfl)]
  rfl

theorem decodeSlice_str (a : String) (l : List String) :
    decodeSlice (decodeString "") (.arr ((a :: l).map Json.str)) = some (some (a :: l)) := by
  simp only [decodeSlice, decodeItems_str, Option.map_some']

theorem decodeSlice_num (a : Int) (l : List Int) :
    decodeSlice (decodeInt 0) (.arr ((a :: l).map Json.num)) = some (some (a :: l)) := by
  simp only [decodeSlice, decodeItems_num, Option.map_some']

theorem decodeStruct_record (fold : String → String) (r : ZoneRecord) :
    decodeStruct (setRecordField fold) ZoneRecord.zero (encodeRecord r) = some r.dropEmpty := by
  obtain ⟨domain, id, link, shortAns, tier, ttl, type_⟩ := r
  show decodeMembers (setRecordField fold) _ _ = _
  rw [decodeMembers_append_of _ _ _ _ ⟨domain, "", "", none, 0, 0, ""⟩
    (decode_omitEmptyString _ _ _ _ _ rfl (by rintro rfl; rfl))]
  rw [decodeMembers_append_of _ _ _ _ ⟨domain, id, "", none, 0, 0, ""⟩
    (decode_omitEmptyString _ _ _ _ _ rfl (by rintro rfl; rfl))]
  rw [decodeMembers_append_of _ _ _ _ ⟨domain, id, link, none, 0, 0, ""⟩
    (decode_omitEmptyString _ _ _ _ _ rfl (by rintro rfl; rfl))]
  rw [decodeMembers_append_of _ _ _ _ ⟨domain, id, link, dropEmpty shortAns, 0, 0, ""⟩
    (decode_omitEmptySlice _ _ _ _ _ _
      (by
        intro a l h
        subst h
        show (decodeSlice (decodeString "") _).map _ = _
        rw [decodeSlice_str]
        rfl)
      (by rintro (rfl | rfl) <;> rfl))]
  rw [decodeMembers_append_of _ _ _ _ ⟨domain, id, link, dropEmpty shortAns, tier, 0, ""⟩
    (decode_omitEmptyInt _ _ _ _ _ rfl (by rintro rfl; rfl))]
  rw [decodeMembers_append_of _ _ _ _ ⟨domain, id, link, dropEmpty shortAns, tier, ttl, ""⟩
    (decode_omitEmptyInt _ _ _ _ _ rfl (by rintro rfl; rfl))]
  exact decode_omitEmptyString _ _ _ _ _ rfl (by rintro rfl; rfl)

theorem decodeSlice_records (fold : String → String) (a : ZoneRecord) (l : List ZoneRecord) :
    decodeSlice (decodeStruct (setRecordField fold) ZoneRecord.zero)
      (.arr ((a :: l).map encodeRecord)) = some (some ((a :: l).map ZoneRecord.dropEmpty)) := by
  simp only [decodeSlice,
    decodeItems_map _ encodeRecord ZoneRecord.dropEmpty (decodeStruct_record fold),
    Option.map_some']

theorem mapInsert_last (k v : String) (acc : List (String × String))
    (h : ∀ e ∈ acc, e.1 < k) : mapInsert k v acc = acc ++ [(k, v)] := by
  induction acc with
  | nil => rfl
  | cons e l ih =>
    have he : e.1 < k := h e (List.mem_cons_self _ _)
    have h1 : ¬ k < e.1 := lt_asymm he
    have h2 : ¬ k = e.1 := ne_of_gt he
    simp only [mapInsert, h1, h2, if_false, List.cons_append]
    rw [ih (fun x hx => h x (List.mem_cons_of_mem _ hx))]

theorem decodeEntries_increasing (l acc : List (String × String))
    (h : (acc ++ l).Pairwise (fun a b => a.1 < b.1)) :
    decodeEntries (l.map fun kv => (kv.1, Json.str kv.2)) acc = some (acc ++ l) := by
  induction l generalizing acc with
  | nil => simp [decodeEntries]
  | cons e l ih =>
    have hlt : ∀ x ∈ acc, x.1 < e.1 := by
      intro x hx
      exact (List.pairwise_append.mp h).2.2 x hx e (List.mem_cons_self _ _)
    simp only [List.map_cons, decodeEntries, decodeString]
    rw [mapInsert_last e.1 e.2 acc hlt]
    have h2 : (acc ++ [(e.1, e.2)] ++ l).Pairwise (fun a b => a.1 < b.1) := by
      simpa using h
    rw [ih (acc ++ [(e.1, e.2)]) h2]
    simp

theorem decodeMap_increasing (e : String × String) (l : List (String × String))
    (h : keysIncreasing (some (e :: l))) :
    decodeMap none (.obj ((e :: l).map fun kv => (kv.1, Json.str kv.2)))
      = some (some (e :: l)) := by
  have h2 := decodeEntries_increasing (e :: l) [] h
  simp only [decodeMap, Option.getD_none, h2, Option.map_some', List.nil_append]

theorem decodeZone_encodeZone (fold : String → String) (z : Zone)
    (hmeta : keysIncreasing z.Meta) :
    decodeZone fold (encodeZone z) = some z.dropEmpty := by
  obtain ⟨id, ttl, nx_ttl, retry, zone, refresh, expiry, primary, dns_servers, networks,
    network_pools, hostmaster, pool, meta_, secondary, link, records, serial⟩ := z
  have hmeta : keysIncreasing meta_ := hmeta
  show decodeMembers (setZoneField fold) _ _ = _
  rw [decodeMembers_append_of _ _ _ _
      ⟨id, 0, 0, 0, "", 0, 0, none, none, none, none, "", "", none, none, "", none, 0⟩
      (decode_omitEmptyString _ _ _ _ _ rfl (by rintro rfl; rfl))]
  rw [decodeMembers_append_of _ _ _ _
      ⟨id, ttl, 0, 0, "", 0, 0, none, none, none, none, "", "", none, none, "", none, 0⟩
      (decode_omitEmptyInt _ _ _ _ _ rfl (by rintro rfl; rfl))]
  rw [decodeMembers_append_of _ _ _ _
      ⟨id, ttl, nx_ttl, 0, "", 0, 0, none, none, none, none, "", "", none, none, "", none, 0⟩
      (decode_omitEmptyInt _ _ _ _ _ rfl (by rintro rfl; rfl))]
  rw [decodeMembers_append_of _ _ _ _
      ⟨id, ttl, nx_ttl, retry, "", 0, 0, none, none, none, none, "", "", none, none, "", none, 0⟩
      (decode_omitEmptyInt _ _ _ _ _ rfl (by rintro rfl; rfl))]
  rw [decodeMembers_append_of _ _ _ _
      ⟨id, ttl, nx_ttl, retry, zone, 0, 0, none, none, none, none, "", "", none, none, "", none,
       0⟩
      (decode_omitEmptyString _ _ _ _ _ rfl (by rintro rfl; rfl))]
  rw [decodeMembers_append_of _ _ _ _
      ⟨id, ttl, nx_ttl, retry, zone, refresh, 0, none, none, none, none, "", "", none, none, "",
       none, 0⟩
      (decode_omitEmptyInt _ _ _ _ _ rfl (by rintro rfl; rfl))]
  rw [decodeMembers_append_of _ _ _ _
      ⟨id, ttl, nx_ttl, retry, zone, refresh, expiry, none, none, none, none, "", "", none, none,
       "", none, 0⟩
      (decode_omitEmptyInt _ _ _ _ _ rfl (by rintro rfl; rfl))]
  rw [decodeMembers_append_of _ _ _ _
      ⟨id, ttl, nx_ttl, retry, zone, refresh, expiry, primary, none, none, none, "", "", none,
       none, "", none, 0⟩
      (decode_omitEmptyPointer _ _ _ _ _ _
        (by
          intro a h
          subst h
          show (decodePointer _ _ none _).map _ = _
          rw [decodeMembers_primary]
          rfl)
        (by rintro rfl; rfl))]
  rw [decodeMembers_append_of _ _ _ _
      ⟨id, ttl, nx_ttl, retry, zone, refresh, expiry, primary, dropEmpty dns_servers, none, none,
       "", "", none, none, "", none, 0⟩
      (decode_omitEmptySlice _ _ _ _ _ _
        (by
          intro a l h
          subst h
          show (decodeSlice _ _).map _ = _
          rw [decodeSlice_str]
          rfl)
        (by rintro (rfl | rfl) <;> rfl))]
  rw [decodeMembers_append_of _ _ _ _
      ⟨id, ttl, nx_ttl, retry, zone, refresh, expiry, primary, dropEmpty dns_servers,
       dropEmpty networks, none, "", "", none, none, "", none, 0⟩
      (decode_omitEmptySlice _ _ _ _ _ _
        (by
          intro a l h
          subst h
          show (decodeSlice _ _).map _ = _
          rw [decodeSlice_num]
          rfl)
        (by rintro (rfl | rfl) <;> rfl))]
  rw [decodeMembers_append_of _ _ _ _
      ⟨id, ttl, nx_ttl, retry, zone, refresh, expiry, primary, dropEmpty dns_servers,
       dropEmpty networks, dropEmpty network_pools, "", "", none, none, "", none, 0⟩
      (decode_omitEmptySlice _ _ _ _ _ _
        (by
          intro a l h
          subst h
          show (decodeSlice _ _).map _ = _
          rw [decodeSlice_str]
          rfl)
        (by rintro (rfl | rfl) <;> rfl))]
  rw [decodeMembers_append_of _ _ _ _
      ⟨id, ttl, nx_ttl, retry, zone, refresh, expiry, primary, dropEmpty dns_servers,
       dropEmpty networks, dropEmpty network_pools, hostmaster, "", none, none, "", none, 0⟩
      (decode_omitEmptyString _ _ _ _ _ rfl (by rintro rfl; rfl))]
  rw [decodeMembers_append_of _ _ _ _
      ⟨id, ttl, nx_ttl, retry, zone, refresh, expiry, primary, dropEmpty dns_servers,
       dropEmpty networks, dropEmpty network_pools, hostmaster, pool, none, none, "", none, 0⟩
      (decode_omitEmptyString _ _ _ _ _ rfl (by rintro rfl; rfl))]
  rw [decodeMembers_append_of _ _ _ _
      ⟨id, ttl, nx_ttl, retry, zone, refresh, expiry, primary, dropEmpty dns_servers,
       dropEmpty networks, dropEmpty network_pools, hostmaster, pool, dropEmpty meta_, none, "",
       none, 0⟩
      (decode_omitEmptyMap _ _ _ _ _
        (by
          intro e l h
          subst h
          show (decodeMap none _).map _ = _
          rw [decodeMap_increasing e l hmeta]
          rfl)
        (by rintro (rfl | rfl) <;> rfl))]
  rw [decodeMembers_append_of _ _ _ _
      ⟨id, ttl, nx_ttl, retry, zone, refresh, expiry, primary, dropEmpty dns_servers,
       dropEmpty networks, dropEmpty network_pools, hostmaster, pool, dropEmpty meta_, secondary,
       "", none, 0⟩
      (decode_omitEmptyPointer _ _ _ _ _ _
        (by
          intro a h
          subst h
          show (decodePointer _ _ none _).map _ = _
          rw [decodeMembers_secondary]
          rfl)
        (by rintro rfl; rfl))]
  rw [decodeMembers_append_of _ _ _ _
      ⟨id, ttl, nx_ttl, retry, zone, refresh, expiry, primary, dropEmpty dns_servers,
       dropEmpty networks, dropEmpty network_pools, hostmaster, pool, dropEmpty meta_, secondary,
       link, none, 0⟩
      (decode_omitEmptyString _ _ _ _ _ rfl (by rintro rfl; rfl))]
  rw [decodeMembers_append_of _ _ _ _
      ⟨id, ttl, nx_ttl, retry, zone, refresh, expiry, primary, dropEmpty dns_servers,
       dropEmpty networks, dropEmpty network_pools, hostmaster, pool, dropEmpty meta_, secondary,
       link, dropEmpty (records.map fun l => l.map ZoneRecord.dropEmpty), 0⟩
      (decode_omitEmptySlice _ _ _ _ _ _
        (by
          intro a l h
          subst h
          show (decodeSlice _ _).map _ = _
          rw [decodeSlice_records]
          rfl)
        (by rintro (rfl | rfl) <;> rfl))]
  exact decode_omitEmptyInt _ _ _ _ _ rfl (by rintro rfl; rfl)

/-- C8, amended: for every zone whose Meta map is listed by increasing key, and every case
folding of the decoder, decoding the JSON of the zone into a fresh zone succeeds and gives the
zone back, except that each slice or map of length 0 held by an omit-when-empty field
(`Dns_servers`, `Networks`, `Network_pools`, `Meta`, `Records`, the `ShortAns` of a record)
comes back `nil`, also when it was allocated. Primary comes back as it was, an allocated empty
Secondaries list included, and a zone with no such empty slice or map comes back equal. -/
theorem json_roundTrip (fold : String → String) (z : Zone) (hmeta : keysIncreasing z.Meta) :
    decodeZone fold (encodeZone z) = some z.dropEmpty ∧
    (decodeZone fold (encodeZone z)).map Zone.Primary = some z.Primary ∧
    (z.noEmpty → decodeZone fold (encodeZone z) = some z) := by
  have h := decodeZone_encodeZone fold z hmeta
  refine ⟨h, ?_, ?_⟩
  · rw [h]
    rfl
  · intro hz
    rw [h, hz]

theorem json_roundTrip_witness :
    keysIncreasing sampleZone.Meta ∧ sampleZone.noEmpty ∧
    decodeZone asciiFold (encodeZone sampleZone) = some sampleZone :=
  ⟨List.pairwise_singleton _ _, by decide,
   (json_roundTrip asciiFold sampleZone (List.pairwise_singleton _ _)).2.2 (by decide)⟩

/-- C8, counterexample: a zone with one record whose `ShortAns` is allocated and empty. Its
Records field is populated, and the round trip gives back a record whose `ShortAns` is `nil`:
the decoded zone is not the zone. -/
theorem json_roundTrip_counterexample :
    emptyAnswersZone.Records =
      some [{ Domain := "www.example.com", Id := "", Link := "", ShortAns := some [],
              Tier := 0, Ttl := 0, Type_ := "" }] ∧
    (decodeZone asciiFold (encodeZone emptyAnswersZone)).map Zone.Records =
      some (some [{ Domain := "www.example.com", Id := "", Link := "", ShortAns := none,
                    Tier := 0, Ttl := 0, Type_ := "" }]) ∧
    decodeZone asciiFold (encodeZone emptyAnswersZone) ≠ some emptyAnswersZone := by
  decide

end Nsone
